import Mathlib

/-!
Verification development for the DCSModelRepair session/state-management layer
(`src/llm_api.py` and `src/main.py`).

The Python code is shallowly embedded as follows:
* `PyVal` models Python/JSON values (strings, numbers, booleans, lists,
  dictionaries, `None`).  A message dictionary `{"role": r, "content": c}` is
  `mkDict r c`.
* The on-disk state (the `record.txt` snapshot, the append-only `log.txt`
  audit log) is a `Store`.  The snapshot file is `RecordFile`: absent,
  present-but-unparsable, or parsed to a `PyVal` (JSON serialisation of
  string-valued structures is lossless, so `save` followed by a parse is
  modelled as storing the value itself).  The `events` field is an
  observation trace (warnings, audit-log appends, model invocations) used to
  state temporal/ordering properties; it does not influence control flow.
* Python exceptions visible in this layer are the `PyError` type; functions
  that can raise return `Except PyError _`.
* The external LLM capability (the body of `call_llm_api`) is a parameter
  `client : String → PyVal → Except Unit String`: given the model name and
  the message list it either returns the response text or fails.
-/

inductive PyVal where
  | str : String → PyVal
  | num : Int → PyVal
  | bool : Bool → PyVal
  | list : List PyVal → PyVal
  | dict : List (String × PyVal) → PyVal
  | null : PyVal

/-- A Python exception relevant to this layer. -/
inductive PyError where
  | invalidRole
  | malformedSeed
  | attributeError
  | keyError
  | typeError
  | unicodeDecodeError
deriving DecidableEq, Repr

/-- The state of the `RECORD_PATH` snapshot file: missing, present with
bytes that are not valid UTF-8 (so `json.loads` on the raw bytes raises
`UnicodeDecodeError`, which the code does not catch), present with decodable
text that is not valid JSON (`json.JSONDecodeError`, which the code catches),
or present and parsed to a JSON value. -/
inductive RecordFile where
  | absent
  | undecodable
  | corrupt
  | parsed : PyVal → RecordFile

/-- Observable side effects, in order of occurrence. -/
inductive Event where
  | warn
  | logAppend : PyVal → Event
  | modelCall : String → PyVal → Event

def Event.isModelCall : Event → Bool
  | .modelCall _ _ => true
  | _ => false

/-- The persistent state touched by `llm_api.py` plus the observation trace. -/
structure Store where
  record : RecordFile
  log : List PyVal
  events : List Event

/-- The message dictionary value built by `create_message_dict`. -/
def mkDict (role content : String) : PyVal :=
  PyVal.dict [("role", PyVal.str role), ("content", PyVal.str content)]

/-- Embedding of `load_chat_history` (`llm_api.py` lines 8-23): a missing
file yields an empty list; the raw file bytes are passed to `json.loads` and
only `json.JSONDecodeError` is caught, so bytes that are not valid UTF-8
raise an uncaught `UnicodeDecodeError`; decodable text that is not valid
JSON prints a warning and yields an empty list; otherwise the parsed JSON
value is returned as is. -/
def load_chat_history (s : Store) : Except PyError (PyVal × Store) :=
  match s.record with
  | RecordFile.absent => Except.ok (PyVal.list [], s)
  | RecordFile.undecodable => Except.error PyError.unicodeDecodeError
  | RecordFile.corrupt =>
      Except.ok (PyVal.list [], { s with events := s.events ++ [Event.warn] })
  | RecordFile.parsed v => Except.ok (v, s)

/-- Embedding of `save_chat_history` (`llm_api.py` lines 25-33): the snapshot
file is overwritten with the JSON serialisation of `messages` (serialisation
of string-valued data is lossless, so the stored parse is `messages`). -/
def save_chat_history (messages : PyVal) (s : Store) : Store :=
  { s with record := RecordFile.parsed messages }

/-- Embedding of `log_message` (`llm_api.py` lines 35-43): one serialised
message is appended to the audit log. -/
def log_message (message : PyVal) (s : Store) : Store :=
  { s with log := s.log ++ [message],
           events := s.events ++ [Event.logAppend message] }

/-- Embedding of `create_message_dict` (`llm_api.py` lines 45-58). -/
def create_message_dict (role content : String) : Except PyError PyVal :=
  if role ∉ (["user", "assistant", "system"] : List String) then
    Except.error PyError.invalidRole
  else
    Except.ok (mkDict role content)

/-- Embedding of `call_llm_api` (`llm_api.py` lines 60-81): the external
capability `client` is invoked with the model name and the message list; its
outcome (response text or exception) is passed through, and the invocation is
recorded on the observation trace. -/
def call_llm_api (client : String → PyVal → Except Unit String) (model : String)
    (messages : PyVal) (s : Store) : Except Unit String × Store :=
  (client model messages, { s with events := s.events ++ [Event.modelCall model messages] })

/-- The per-element seed check of `initialize_chat_history`: the element is a
dictionary bearing both a role key and a content key. -/
def isMessageShaped : PyVal → Bool
  | PyVal.dict kvs => kvs.any (fun kv => kv.1 = "role") && kvs.any (fun kv => kv.1 = "content")
  | _ => false

/-- Whole validation performed by `initialize_chat_history` on its
(defaulted) argument: a list all of whose elements are message-shaped. -/
def validSeed : PyVal → Bool
  | PyVal.list msgs => msgs.all isMessageShaped
  | _ => false

/-- Embedding of `initialize_chat_history` (`llm_api.py` lines 83-99): a
`None` seed defaults to the empty list; a seed that is not a list of
dictionaries with `role` and `content` keys raises `ValueError`
(`malformedSeed`) before anything is written; a valid seed overwrites the
snapshot. -/
def initialize_chat_history (initial_messages : Option PyVal) (s : Store) :
    Except PyError Store :=
  let initial_messages := initial_messages.getD (PyVal.list [])
  match initial_messages with
  | PyVal.list msgs =>
      if msgs.all isMessageShaped then
        Except.ok (save_chat_history (PyVal.list msgs) s)
      else
        Except.error PyError.malformedSeed
  | _ => Except.error PyError.malformedSeed

/-- Python truthiness of an optional string argument (`if system_message:`):
true exactly when the argument is present and non-empty. -/
def strTruthy : Option String → Bool
  | Option.none => false
  | some s => s ≠ ""

/-- Embedding of `get_initial_chat_history` (`llm_api.py` lines 101-115):
an empty history, with a leading system message exactly when `system_message`
is truthy (present and non-empty). -/
def get_initial_chat_history (system_message : Option String) :
    Except PyError (List PyVal) :=
  if strTruthy system_message then do
    let m ← create_message_dict "system" (system_message.getD "")
    pure [m]
  else
    pure []

/-- Python `list.append` on a loaded value: raises `AttributeError` when the
value is not a list. -/
def pyAppend (v x : PyVal) : Except PyError (List PyVal) :=
  match v with
  | PyVal.list xs => Except.ok (xs ++ [x])
  | _ => Except.error PyError.attributeError

/-- The fixed fallback notice substituted for the assistant answer when the
external call fails (`llm_api.py` line 149). -/
def assistant_error_message : String :=
  "we were unable to process your request at this time."

/-- Embedding of `chat` (`llm_api.py` lines 118-166).  The current history is
either a fresh initial history or the loaded snapshot; the user message is
logged and appended; the external capability is invoked; on failure a fixed
fallback assistant message is substituted (logged, appended, saved) and on
success the real assistant message is appended, saved and logged.  Both
messages are returned. -/
def chat (client : String → PyVal → Except Unit String) (model : String)
    (prompt : String) (use_initial_history : Bool) (system_message : Option String)
    (s : Store) : Except PyError ((PyVal × PyVal) × Store) := do
  let (current, s) ←
    if use_initial_history then do
      let l ← get_initial_chat_history system_message
      pure (PyVal.list l, s)
    else
      load_chat_history s
  let user_message_dict ← create_message_dict "user" prompt
  let s := log_message user_message_dict s
  let current_messages ← pyAppend current user_message_dict
  let (res, s) := call_llm_api client model (PyVal.list current_messages) s
  match res with
  | Except.error _ => do
      let assistant_message_dict ← create_message_dict "assistant" assistant_error_message
      let s := log_message assistant_message_dict s
      let current_messages := current_messages ++ [assistant_message_dict]
      let s := save_chat_history (PyVal.list current_messages) s
      pure ((user_message_dict, assistant_message_dict), s)
  | Except.ok llm_response_content => do
      let assistant_message_dict ← create_message_dict "assistant" llm_response_content
      let current_messages := current_messages ++ [assistant_message_dict]
      let s := save_chat_history (PyVal.list current_messages) s
      let s := log_message assistant_message_dict s
      pure ((user_message_dict, assistant_message_dict), s)

/-- The backtick character, written by code point. -/
def backtick : Char := Char.ofNat 96

/-- The three-backtick fence delimiter of the extraction pattern. -/
def ticks : List Char := [backtick, backtick, backtick]

/-- Does the character list start with the three-backtick delimiter? -/
def startsWithTicks (l : List Char) : Bool := ticks.isPrefixOf l

/-- The codepoint intervals matched by the regex class of word characters
for text patterns (the Unicode tables of CPython 3.11): Unicode
alphanumerics plus the underscore, exactly as tabulated by the regex
engine. -/
def wordRanges : List (Nat × Nat) := [
  (48, 57), (65, 90), (95, 95), (97, 122), (170, 170), (178, 179),
  (181, 181), (185, 186), (188, 190), (192, 214), (216, 246), (248, 705),
  (710, 721), (736, 740), (748, 748), (750, 750), (880, 884), (886, 887),
  (890, 893), (895, 895), (902, 902), (904, 906), (908, 908), (910, 929),
  (931, 1013), (1015, 1153), (1162, 1327), (1329, 1366), (1369, 1369), (1376, 1416),
  (1488, 1514), (1519, 1522), (1568, 1610), (1632, 1641), (1646, 1647), (1649, 1747),
  (1749, 1749), (1765, 1766), (1774, 1788), (1791, 1791), (1808, 1808), (1810, 1839),
  (1869, 1957), (1969, 1969), (1984, 2026), (2036, 2037), (2042, 2042), (2048, 2069),
  (2074, 2074), (2084, 2084), (2088, 2088), (2112, 2136), (2144, 2154), (2160, 2183),
  (2185, 2190), (2208, 2249), (2308, 2361), (2365, 2365), (2384, 2384), (2392, 2401),
  (2406, 2415), (2417, 2432), (2437, 2444), (2447, 2448), (2451, 2472), (2474, 2480),
  (2482, 2482), (2486, 2489), (2493, 2493), (2510, 2510), (2524, 2525), (2527, 2529),
  (2534, 2545), (2548, 2553), (2556, 2556), (2565, 2570), (2575, 2576), (2579, 2600),
  (2602, 2608), (2610, 2611), (2613, 2614), (2616, 2617), (2649, 2652), (2654, 2654),
  (2662, 2671), (2674, 2676), (2693, 2701), (2703, 2705), (2707, 2728), (2730, 2736),
  (2738, 2739), (2741, 2745), (2749, 2749), (2768, 2768), (2784, 2785), (2790, 2799),
  (2809, 2809), (2821, 2828), (2831, 2832), (2835, 2856), (2858, 2864), (2866, 2867),
  (2869, 2873), (2877, 2877), (2908, 2909), (2911, 2913), (2918, 2927), (2929, 2935),
  (2947, 2947), (2949, 2954), (2958, 2960), (2962, 2965), (2969, 2970), (2972, 2972),
  (2974, 2975), (2979, 2980), (2984, 2986), (2990, 3001), (3024, 3024), (3046, 3058),
  (3077, 3084), (3086, 3088), (3090, 3112), (3114, 3129), (3133, 3133), (3160, 3162),
  (3165, 3165), (3168, 3169), (3174, 3183), (3192, 3198), (3200, 3200), (3205, 3212),
  (3214, 3216), (3218, 3240), (3242, 3251), (3253, 3257), (3261, 3261), (3293, 3294),
  (3296, 3297), (3302, 3311), (3313, 3314), (3332, 3340), (3342, 3344), (3346, 3386),
  (3389, 3389), (3406, 3406), (3412, 3414), (3416, 3425), (3430, 3448), (3450, 3455),
  (3461, 3478), (3482, 3505), (3507, 3515), (3517, 3517), (3520, 3526), (3558, 3567),
  (3585, 3632), (3634, 3635), (3648, 3654), (3664, 3673), (3713, 3714), (3716, 3716),
  (3718, 3722), (3724, 3747), (3749, 3749), (3751, 3760), (3762, 3763), (3773, 3773),
  (3776, 3780), (3782, 3782), (3792, 3801), (3804, 3807), (3840, 3840), (3872, 3891),
  (3904, 3911), (3913, 3948), (3976, 3980), (4096, 4138), (4159, 4169), (4176, 4181),
  (4186, 4189), (4193, 4193), (4197, 4198), (4206, 4208), (4213, 4225), (4238, 4238),
  (4240, 4249), (4256, 4293), (4295, 4295), (4301, 4301), (4304, 4346), (4348, 4680),
  (4682, 4685), (4688, 4694), (4696, 4696), (4698, 4701), (4704, 4744), (4746, 4749),
  (4752, 4784), (4786, 4789), (4792, 4798), (4800, 4800), (4802, 4805), (4808, 4822),
  (4824, 4880), (4882, 4885), (4888, 4954), (4969, 4988), (4992, 5007), (5024, 5109),
  (5112, 5117), (5121, 5740), (5743, 5759), (5761, 5786), (5792, 5866), (5870, 5880),
  (5888, 5905), (5919, 5937), (5952, 5969), (5984, 5996), (5998, 6000), (6016, 6067),
  (6103, 6103), (6108, 6108), (6112, 6121), (6128, 6137), (6160, 6169), (6176, 6264),
  (6272, 6276), (6279, 6312), (6314, 6314), (6320, 6389), (6400, 6430), (6470, 6509),
  (6512, 6516), (6528, 6571), (6576, 6601), (6608, 6618), (6656, 6678), (6688, 6740),
  (6784, 6793), (6800, 6809), (6823, 6823), (6917, 6963), (6981, 6988), (6992, 7001),
  (7043, 7072), (7086, 7141), (7168, 7203), (7232, 7241), (7245, 7293), (7296, 7304),
  (7312, 7354), (7357, 7359), (7401, 7404), (7406, 7411), (7413, 7414), (7418, 7418),
  (7424, 7615), (7680, 7957), (7960, 7965), (7968, 8005), (8008, 8013), (8016, 8023),
  (8025, 8025), (8027, 8027), (8029, 8029), (8031, 8061), (8064, 8116), (8118, 8124),
  (8126, 8126), (8130, 8132), (8134, 8140), (8144, 8147), (8150, 8155), (8160, 8172),
  (8178, 8180), (8182, 8188), (8304, 8305), (8308, 8313), (8319, 8329), (8336, 8348),
  (8450, 8450), (8455, 8455), (8458, 8467), (8469, 8469), (8473, 8477), (8484, 8484),
  (8486, 8486), (8488, 8488), (8490, 8493), (8495, 8505), (8508, 8511), (8517, 8521),
  (8526, 8526), (8528, 8585), (9312, 9371), (9450, 9471), (10102, 10131), (11264, 11492),
  (11499, 11502), (11506, 11507), (11517, 11517), (11520, 11557), (11559, 11559), (11565, 11565),
  (11568, 11623), (11631, 11631), (11648, 11670), (11680, 11686), (11688, 11694), (11696, 11702),
  (11704, 11710), (11712, 11718), (11720, 11726), (11728, 11734), (11736, 11742), (11823, 11823),
  (12293, 12295), (12321, 12329), (12337, 12341), (12344, 12348), (12353, 12438), (12445, 12447),
  (12449, 12538), (12540, 12543), (12549, 12591), (12593, 12686), (12690, 12693), (12704, 12735),
  (12784, 12799), (12832, 12841), (12872, 12879), (12881, 12895), (12928, 12937), (12977, 12991),
  (13312, 19903), (19968, 42124), (42192, 42237), (42240, 42508), (42512, 42539), (42560, 42606),
  (42623, 42653), (42656, 42735), (42775, 42783), (42786, 42888), (42891, 42954), (42960, 42961),
  (42963, 42963), (42965, 42969), (42994, 43009), (43011, 43013), (43015, 43018), (43020, 43042),
  (43056, 43061), (43072, 43123), (43138, 43187), (43216, 43225), (43250, 43255), (43259, 43259),
  (43261, 43262), (43264, 43301), (43312, 43334), (43360, 43388), (43396, 43442), (43471, 43481),
  (43488, 43492), (43494, 43518), (43520, 43560), (43584, 43586), (43588, 43595), (43600, 43609),
  (43616, 43638), (43642, 43642), (43646, 43695), (43697, 43697), (43701, 43702), (43705, 43709),
  (43712, 43712), (43714, 43714), (43739, 43741), (43744, 43754), (43762, 43764), (43777, 43782),
  (43785, 43790), (43793, 43798), (43808, 43814), (43816, 43822), (43824, 43866), (43868, 43881),
  (43888, 44002), (44016, 44025), (44032, 55203), (55216, 55238), (55243, 55291), (63744, 64109),
  (64112, 64217), (64256, 64262), (64275, 64279), (64285, 64285), (64287, 64296), (64298, 64310),
  (64312, 64316), (64318, 64318), (64320, 64321), (64323, 64324), (64326, 64433), (64467, 64829),
  (64848, 64911), (64914, 64967), (65008, 65019), (65136, 65140), (65142, 65276), (65296, 65305),
  (65313, 65338), (65345, 65370), (65382, 65470), (65474, 65479), (65482, 65487), (65490, 65495),
  (65498, 65500), (65536, 65547), (65549, 65574), (65576, 65594), (65596, 65597), (65599, 65613),
  (65616, 65629), (65664, 65786), (65799, 65843), (65856, 65912), (65930, 65931), (66176, 66204),
  (66208, 66256), (66273, 66299), (66304, 66339), (66349, 66378), (66384, 66421), (66432, 66461),
  (66464, 66499), (66504, 66511), (66513, 66517), (66560, 66717), (66720, 66729), (66736, 66771),
  (66776, 66811), (66816, 66855), (66864, 66915), (66928, 66938), (66940, 66954), (66956, 66962),
  (66964, 66965), (66967, 66977), (66979, 66993), (66995, 67001), (67003, 67004), (67072, 67382),
  (67392, 67413), (67424, 67431), (67456, 67461), (67463, 67504), (67506, 67514), (67584, 67589),
  (67592, 67592), (67594, 67637), (67639, 67640), (67644, 67644), (67647, 67669), (67672, 67702),
  (67705, 67742), (67751, 67759), (67808, 67826), (67828, 67829), (67835, 67867), (67872, 67897),
  (67968, 68023), (68028, 68047), (68050, 68096), (68112, 68115), (68117, 68119), (68121, 68149),
  (68160, 68168), (68192, 68222), (68224, 68255), (68288, 68295), (68297, 68324), (68331, 68335),
  (68352, 68405), (68416, 68437), (68440, 68466), (68472, 68497), (68521, 68527), (68608, 68680),
  (68736, 68786), (68800, 68850), (68858, 68899), (68912, 68921), (69216, 69246), (69248, 69289),
  (69296, 69297), (69376, 69415), (69424, 69445), (69457, 69460), (69488, 69505), (69552, 69579),
  (69600, 69622), (69635, 69687), (69714, 69743), (69745, 69746), (69749, 69749), (69763, 69807),
  (69840, 69864), (69872, 69881), (69891, 69926), (69942, 69951), (69956, 69956), (69959, 69959),
  (69968, 70002), (70006, 70006), (70019, 70066), (70081, 70084), (70096, 70106), (70108, 70108),
  (70113, 70132), (70144, 70161), (70163, 70187), (70272, 70278), (70280, 70280), (70282, 70285),
  (70287, 70301), (70303, 70312), (70320, 70366), (70384, 70393), (70405, 70412), (70415, 70416),
  (70419, 70440), (70442, 70448), (70450, 70451), (70453, 70457), (70461, 70461), (70480, 70480),
  (70493, 70497), (70656, 70708), (70727, 70730), (70736, 70745), (70751, 70753), (70784, 70831),
  (70852, 70853), (70855, 70855), (70864, 70873), (71040, 71086), (71128, 71131), (71168, 71215),
  (71236, 71236), (71248, 71257), (71296, 71338), (71352, 71352), (71360, 71369), (71424, 71450),
  (71472, 71483), (71488, 71494), (71680, 71723), (71840, 71922), (71935, 71942), (71945, 71945),
  (71948, 71955), (71957, 71958), (71960, 71983), (71999, 71999), (72001, 72001), (72016, 72025),
  (72096, 72103), (72106, 72144), (72161, 72161), (72163, 72163), (72192, 72192), (72203, 72242),
  (72250, 72250), (72272, 72272), (72284, 72329), (72349, 72349), (72368, 72440), (72704, 72712),
  (72714, 72750), (72768, 72768), (72784, 72812), (72818, 72847), (72960, 72966), (72968, 72969),
  (72971, 73008), (73030, 73030), (73040, 73049), (73056, 73061), (73063, 73064), (73066, 73097),
  (73112, 73112), (73120, 73129), (73440, 73458), (73648, 73648), (73664, 73684), (73728, 74649),
  (74752, 74862), (74880, 75075), (77712, 77808), (77824, 78894), (82944, 83526), (92160, 92728),
  (92736, 92766), (92768, 92777), (92784, 92862), (92864, 92873), (92880, 92909), (92928, 92975),
  (92992, 92995), (93008, 93017), (93019, 93025), (93027, 93047), (93053, 93071), (93760, 93846),
  (93952, 94026), (94032, 94032), (94099, 94111), (94176, 94177), (94179, 94179), (94208, 100343),
  (100352, 101589), (101632, 101640), (110576, 110579), (110581, 110587), (110589, 110590), (110592, 110882),
  (110928, 110930), (110948, 110951), (110960, 111355), (113664, 113770), (113776, 113788), (113792, 113800),
  (113808, 113817), (119520, 119539), (119648, 119672), (119808, 119892), (119894, 119964), (119966, 119967),
  (119970, 119970), (119973, 119974), (119977, 119980), (119982, 119993), (119995, 119995), (119997, 120003),
  (120005, 120069), (120071, 120074), (120077, 120084), (120086, 120092), (120094, 120121), (120123, 120126),
  (120128, 120132), (120134, 120134), (120138, 120144), (120146, 120485), (120488, 120512), (120514, 120538),
  (120540, 120570), (120572, 120596), (120598, 120628), (120630, 120654), (120656, 120686), (120688, 120712),
  (120714, 120744), (120746, 120770), (120772, 120779), (120782, 120831), (122624, 122654), (123136, 123180),
  (123191, 123197), (123200, 123209), (123214, 123214), (123536, 123565), (123584, 123627), (123632, 123641),
  (124896, 124902), (124904, 124907), (124909, 124910), (124912, 124926), (124928, 125124), (125127, 125135),
  (125184, 125251), (125259, 125259), (125264, 125273), (126065, 126123), (126125, 126127), (126129, 126132),
  (126209, 126253), (126255, 126269), (126464, 126467), (126469, 126495), (126497, 126498), (126500, 126500),
  (126503, 126503), (126505, 126514), (126516, 126519), (126521, 126521), (126523, 126523), (126530, 126530),
  (126535, 126535), (126537, 126537), (126539, 126539), (126541, 126543), (126545, 126546), (126548, 126548),
  (126551, 126551), (126553, 126553), (126555, 126555), (126557, 126557), (126559, 126559), (126561, 126562),
  (126564, 126564), (126567, 126570), (126572, 126578), (126580, 126583), (126585, 126588), (126590, 126590),
  (126592, 126601), (126603, 126619), (126625, 126627), (126629, 126633), (126635, 126651), (127232, 127244),
  (130032, 130041), (131072, 173791), (173824, 177976), (177984, 178205), (178208, 183969), (183984, 191456),
  (194560, 195101), (196608, 201546)]

/-- The codepoints removed by Python str.strip, i.e. the Unicode
whitespace set of CPython 3.11. -/
def spaceCodes : List Nat :=
  [9, 10, 11, 12, 13, 28, 29, 30, 31, 32, 133, 160, 5760, 8192, 8193, 8194, 8195, 8196, 8197, 8198, 8199, 8200, 8201, 8202, 8232, 8233, 8239, 8287, 12288]

/-- Python regex word character: the codepoint lies in one of the intervals
that the regex class of word characters covers. -/
def isWordChar (c : Char) : Bool :=
  wordRanges.any (fun p => p.1 ≤ c.toNat && c.toNat ≤ p.2)

/-- The maximal leading run of word characters. -/
def takeWordRun : List Char → List Char
  | [] => []
  | c :: rest => if isWordChar c then c :: takeWordRun rest else []

/-- What remains after the maximal leading run of word characters. -/
def dropWordRun : List Char → List Char
  | [] => []
  | c :: rest => if isWordChar c then dropWordRun rest else c :: rest

/-- Scan for the first occurrence of the closing delimiter; return the
content before it (the lazy group of the pattern), or nothing when no closing
delimiter exists. -/
def takeUntilTicks : List Char → Option (List Char)
  | [] => Option.none
  | c :: rest =>
      if startsWithTicks (c :: rest) then some []
      else (takeUntilTicks rest).map (fun b => c :: b)

/-- Attempt the pattern at the head of the list: the opening delimiter, an
optional word-character language tag, a newline, then the shortest content
followed by the closing delimiter.  (Only the maximal tag run can be followed
by a newline, since a newline is not a word character, so no further
backtracking arises.) -/
def matchFencedAt (l : List Char) : Option (List Char) :=
  if startsWithTicks l then
    match dropWordRun (l.drop 3) with
    | c :: body => if c = '\n' then takeUntilTicks body else Option.none
    | [] => Option.none
  else
    Option.none

/-- Leftmost search of the pattern, as `re.search` performs it: the match
attempted at each position in turn. -/
def searchFenced : List Char → Option (List Char)
  | [] => Option.none
  | c :: rest =>
      match matchFencedAt (c :: rest) with
      | some body => some body
      | Option.none => searchFenced rest

/-- Python `str.strip()` whitespace: the codepoint is one of the whitespace
codepoints. -/
def isPySpace (c : Char) : Bool := spaceCodes.contains c.toNat

/-- Python `str.strip()`: leading and trailing whitespace removed. -/
def stripChars (l : List Char) : List Char :=
  ((l.dropWhile isPySpace).reverse.dropWhile isPySpace).reverse

/-- Embedding of `extract_code_snippet` (`main.py` lines 37-49): the
stripped interior of the first fenced block when the pattern matches, the
input unchanged otherwise. -/
def extract_code_snippet (llm_response_content : String) : String :=
  match searchFenced llm_response_content.toList with
  | some body => String.mk (stripChars body)
  | Option.none => llm_response_content

/-- The model identifier from `main.py` line 7. -/
def MODEL : String := "gpt-4.1"

/-- Python dictionary key lookup; `Option.none` when the key is missing or
the value is not a dictionary. -/
def dictGet : PyVal → String → Option PyVal
  | PyVal.dict kvs, k => (kvs.find? (fun kv => kv.1 = k)).map (fun kv => kv.2)
  | _, _ => Option.none

/-- Python `k in d` for a dictionary. -/
def dictHasKey (v : PyVal) (k : String) : Bool :=
  match v with
  | PyVal.dict kvs => kvs.any (fun kv => kv.1 = k)
  | _ => false

/-- Python dictionary assignment `d[k] = x`: replace an existing binding or
append a new one. -/
def dictSet (v : PyVal) (k : String) (x : PyVal) : PyVal :=
  match v with
  | PyVal.dict kvs =>
      if kvs.any (fun kv => kv.1 = k) then
        PyVal.dict (kvs.map (fun kv => if kv.1 = k then (k, x) else kv))
      else
        PyVal.dict (kvs ++ [(k, x)])
  | v => v

/-- Python subscript `d[k]`: `KeyError` when the key is missing. -/
def dictGetItem (v : PyVal) (k : String) : Except PyError PyVal :=
  match dictGet v k with
  | some x => Except.ok x
  | Option.none => Except.error PyError.keyError

/-- Coerce a value expected to be a string (`TypeError` otherwise). -/
def pyStr : PyVal → Except PyError String
  | PyVal.str s => Except.ok s
  | _ => Except.error PyError.typeError

/-- The error-instruction text inserted by `modify_grammer`
(`main.py` lines 110-114). -/
def error_instruction_with_id_prompt : String :=
  "The compiler provides the line number where it encountered an issue and explains the nature of the error. Please use this error message, along with the provided grammatical syntax error examples, to identify and correct the error in the model. **For each correction, please indicate the ID of the grammatical example (from the \x27grammar_correction_examples\x27 list) that you referred to, if applicable.**"

/-- The system message of the grammar-correction phase
(`main.py` lines 123-137). -/
def grammar_system_message : String :=
  "You are an **interactive compile checker** specialized in correcting grammatical mistakes in LTS and FLTL models for Discrete Controller Synthesis (DCS). Given a JSON-formatted prompt containing model description and compilation error message, detect grammatical errors and suggest corrections. This process will repeat until compilation is fully successful.\n\n**【CRUCIAL OUTPUT FORMAT RULE: GRAMMAR CORRECTION】**\n- **If no grammatical mistakes are found (or compilation is deemed successful by you):** Respond with \"No grammatical mistakes found. Compilation completed successfully.\" and **immediately thereafter, provide the entire corrected model as a single Markdown code block (```plaintext). No other explanations are needed.**\n- **If grammatical mistakes are detected:**\n  - First, **provide the entire corrected model as a single Markdown code block (```plaintext). This is the highest priority.**\n  - **Immediately after** the code block, briefly explain **the errors that needed correction, their reasons, AND THE ID(S) OF THE GRAMMAR EXAMPLE(S) AND GRAMMAR RULE(S) THAT YOU REFERRED TO (e.g., \x27Referenced Grammar Example ID: 5, Referenced Grammar Rule ID: LTS_3\x27).** If multiple examples/rules apply, list all relevant IDs. If no specific example/rule was directly referenced, state \x27No specific reference\x27. Use a bulleted list for each error.\n  - If there are multiple errors, list all errors and provide corrections for each."

/-- Embedding of `modify_grammer` (`main.py` lines 94-146).  The JSON prompt
template (read by `json_reader`, which returns a dictionary) is the
`grammar_template` parameter; the JSON serialisation `json.dumps` of the
assembled prompt data is the external `dumps` parameter.  The grammar
correction context is filled in, one fresh Conversation Session turn is run
(`use_initial_history = True`), and the suggestion is extracted from the
assistant message content. -/
def modify_grammer (dumps : PyVal → String)
    (client : String → PyVal → Except Unit String)
    (grammar_template : List (String × PyVal))
    (inspected_model error_statement : String) (s : Store) :
    Except PyError ((PyVal × PyVal × String) × Store) := do
  let prompt_data_for_llm := PyVal.dict grammar_template
  let prompt_data_for_llm :=
    if dictHasKey prompt_data_for_llm "current_correction_context" then
      prompt_data_for_llm
    else
      dictSet prompt_data_for_llm "current_correction_context" (PyVal.dict [])
  let ctx ← dictGetItem prompt_data_for_llm "current_correction_context"
  let ctx := dictSet ctx "error_instruction" (PyVal.str error_instruction_with_id_prompt)
  let ctx := dictSet ctx "compilation_error_message" (PyVal.str error_statement)
  let ctx := dictSet ctx "model_to_correct" (PyVal.str inspected_model)
  let prompt_data_for_llm := dictSet prompt_data_for_llm "current_correction_context" ctx
  let prompt_content := dumps prompt_data_for_llm
  let (pr, s) ← chat client MODEL prompt_content true (some grammar_system_message) s
  let response_content ← dictGetItem pr.2 "content"
  let response_text ← pyStr response_content
  let suggested_model := extract_code_snippet response_text
  pure ((pr.1, pr.2, suggested_model), s)

/-- A well-formed message of the data model: a string role and a string
content. -/
structure Message where
  role : String
  content : String
deriving DecidableEq, Repr

/-- The dictionary value of a well-formed message. -/
def Message.toPy (m : Message) : PyVal := mkDict m.role m.content

/-- The JSON array value of a well-formed history. -/
def historyToPy (h : List Message) : PyVal := PyVal.list (h.map Message.toPy)

/-- The pattern matches at position `p` of `l` with language tag `tag` and
group content `body` (not necessarily the lazy-minimal one): the opening
delimiter, a word-character tag, a newline, the content, the closing
delimiter, and arbitrary remaining input. -/
def MatchesAt (l : List Char) (p : Nat) (tag body : List Char) : Prop :=
  (∀ c ∈ tag, isWordChar c = true) ∧
  ∃ rest, l.drop p = ticks ++ tag ++ '\n' :: (body ++ ticks ++ rest)

/-- The content is lazy-minimal: no closing delimiter occurs before the one
that ends the group. -/
def MinimalBody (body : List Char) : Prop :=
  ∀ i, i < body.length → ¬ ticks <+: (body ++ ticks).drop i

/-- The first match of the pattern, as `re.search` selects it: it occurs at
`p`, its content is lazy-minimal, and no match occurs at an earlier
position. -/
def FirstFenced (l : List Char) (p : Nat) (tag body : List Char) : Prop :=
  MatchesAt l p tag body ∧ MinimalBody body ∧ ∀ q t b, q < p → ¬ MatchesAt l q t b

def userD (p : String) : PyVal := mkDict "user" p

def fallbackD : PyVal := mkDict "assistant" assistant_error_message

/-- Fixture: the empty store with an absent snapshot file. -/
def emptyStore : Store := ⟨RecordFile.absent, [], []⟩

/-- Fixture: the empty store with a corrupt snapshot file. -/
def corruptStore : Store := ⟨RecordFile.corrupt, [], []⟩

/-- Fixture: the empty store with a snapshot file whose bytes are not valid
UTF-8. -/
def undecodableStore : Store := ⟨RecordFile.undecodable, [], []⟩

def c6Store : Store :=
  ⟨RecordFile.parsed (PyVal.list [mkDict "user" "p", fallbackD]),
   [mkDict "user" "p", fallbackD],
   [Event.logAppend (mkDict "user" "p"),
    Event.modelCall "m" (PyVal.list [mkDict "user" "p"]),
    Event.logAppend fallbackD]⟩

def c9Store : Store :=
  ⟨RecordFile.parsed (PyVal.list [mkDict "system" grammar_system_message,
      mkDict "user" "q", mkDict "assistant" "x"]),
   [mkDict "user" "q", mkDict "assistant" "x"],
   [Event.logAppend (mkDict "user" "q"),
    Event.modelCall MODEL (PyVal.list [mkDict "system" grammar_system_message,
      mkDict "user" "q"]),
    Event.logAppend (mkDict "assistant" "x")]⟩

def exBody : List Char := ['M', 'O', 'D', 'E', 'L', ' ', 'X', '\n']

lemma Message.toPy_injective : Function.Injective Message.toPy := by
  intro a b h
  simp only [Message.toPy, mkDict, PyVal.dict.injEq, List.cons.injEq, Prod.mk.injEq,
    PyVal.str.injEq, and_true] at h
  cases a; cases b; simp_all

lemma create_message_dict_user (p : String) :
    create_message_dict "user" p = Except.ok (mkDict "user" p) := by
  simp [create_message_dict]

lemma create_message_dict_assistant (p : String) :
    create_message_dict "assistant" p = Except.ok (mkDict "assistant" p) := by
  simp [create_message_dict]

lemma create_message_dict_system (p : String) :
    create_message_dict "system" p = Except.ok (mkDict "system" p) := by
  simp [create_message_dict]

lemma strTruthy_some (o : Option String) (h : strTruthy o = true) :
    ∃ S, o = some S ∧ S ≠ "" := by
  cases o with
  | none => simp [strTruthy] at h
  | some S => exact ⟨S, rfl, by simpa [strTruthy] using h⟩

lemma chat_fresh_spec (client : String → PyVal → Except Unit String)
    (model prompt S : String) (s : Store) (hS : S ≠ "") :
    ∃ c s₂, chat client model prompt true (some S) s
        = Except.ok ((mkDict "user" prompt, mkDict "assistant" c), s₂)
      ∧ s₂.record = RecordFile.parsed (PyVal.list
          [mkDict "system" S, mkDict "user" prompt, mkDict "assistant" c])
      ∧ s₂.log = s.log ++ [mkDict "user" prompt, mkDict "assistant" c]
      ∧ s₂.events = s.events ++ [Event.logAppend (mkDict "user" prompt),
          Event.modelCall model (PyVal.list [mkDict "system" S, mkDict "user" prompt]),
          Event.logAppend (mkDict "assistant" c)]
      ∧ (client model (PyVal.list [mkDict "system" S, mkDict "user" prompt]) = Except.error () →
          c = assistant_error_message)
      ∧ (∀ t, client model (PyVal.list [mkDict "system" S, mkDict "user" prompt]) = Except.ok t → c = t) := by
  have htr : strTruthy (some S) = true := by simp [strTruthy, hS]
  cases hcl : client model (PyVal.list [mkDict "system" S, mkDict "user" prompt]) with
  | error e =>
      simp only [chat, get_initial_chat_history, htr, if_true, bind, Except.bind,
        create_message_dict_system, Option.getD_some, create_message_dict_user, log_message,
        pyAppend, call_llm_api, List.singleton_append, hcl, create_message_dict_assistant,
        save_chat_history, pure, Except.pure]
      exact ⟨assistant_error_message, _, rfl, by simp, by simp, by simp,
        fun _ => rfl, fun t ht => by injection ht⟩
  | ok c =>
      simp only [chat, get_initial_chat_history, htr, if_true, bind, Except.bind,
        create_message_dict_system, Option.getD_some, create_message_dict_user, log_message,
        pyAppend, call_llm_api, List.singleton_append, hcl, create_message_dict_assistant,
        save_chat_history, pure, Except.pure]
      exact ⟨c, _, rfl, by simp, by simp, by simp,
        fun hc => by injection hc, fun t ht => by injection ht⟩

lemma chat_fresh_nosys_spec (client : String → PyVal → Except Unit String)
    (model prompt : String) (sysm : Option String) (s : Store)
    (htr : strTruthy sysm = false) :
    ∃ c s₂, chat client model prompt true sysm s
        = Except.ok ((mkDict "user" prompt, mkDict "assistant" c), s₂)
      ∧ s₂.record = RecordFile.parsed (PyVal.list
          [mkDict "user" prompt, mkDict "assistant" c])
      ∧ s₂.log = s.log ++ [mkDict "user" prompt, mkDict "assistant" c]
      ∧ s₂.events = s.events ++ [Event.logAppend (mkDict "user" prompt),
          Event.modelCall model (PyVal.list [mkDict "user" prompt]),
          Event.logAppend (mkDict "assistant" c)]
      ∧ (client model (PyVal.list [mkDict "user" prompt]) = Except.error () →
          c = assistant_error_message)
      ∧ (∀ t, client model (PyVal.list [mkDict "user" prompt]) = Except.ok t → c = t) := by
  cases hcl : client model (PyVal.list [mkDict "user" prompt]) with
  | error e =>
      simp only [chat, get_initial_chat_history, htr, Bool.false_eq_true, if_false,
        bind, Except.bind, create_message_dict_user, log_message, pyAppend, call_llm_api,
        List.nil_append, hcl, create_message_dict_assistant, save_chat_history,
        pure, Except.pure]
      exact ⟨assistant_error_message, _, rfl, by simp, by simp, by simp,
        fun _ => rfl, fun t ht => by injection ht⟩
  | ok c =>
      simp only [chat, get_initial_chat_history, htr, Bool.false_eq_true, if_false,
        bind, Except.bind, create_message_dict_user, log_message, pyAppend, call_llm_api,
        List.nil_append, hcl, create_message_dict_assistant, save_chat_history,
        pure, Except.pure]
      exact ⟨c, _, rfl, by simp, by simp, by simp,
        fun hc => by injection hc, fun t ht => by injection ht⟩

lemma chat_load_spec (client : String → PyVal → Except Unit String)
    (model prompt : String) (sysm : Option String) (v : List PyVal) (w : List Event)
    (s : Store)
    (hload : load_chat_history s
      = Except.ok (PyVal.list v, { s with events := s.events ++ w })) :
    ∃ c s₂, chat client model prompt false sysm s
        = Except.ok ((mkDict "user" prompt, mkDict "assistant" c), s₂)
      ∧ s₂.record = RecordFile.parsed (PyVal.list
          (v ++ [mkDict "user" prompt, mkDict "assistant" c]))
      ∧ s₂.log = s.log ++ [mkDict "user" prompt, mkDict "assistant" c]
      ∧ s₂.events = s.events ++ w ++ [Event.logAppend (mkDict "user" prompt),
          Event.modelCall model (PyVal.list (v ++ [mkDict "user" prompt])),
          Event.logAppend (mkDict "assistant" c)]
      ∧ (client model (PyVal.list (v ++ [mkDict "user" prompt])) = Except.error () →
          c = assistant_error_message)
      ∧ (∀ t, client model (PyVal.list (v ++ [mkDict "user" prompt])) = Except.ok t → c = t) := by
  cases hcl : client model (PyVal.list (v ++ [mkDict "user" prompt])) with
  | error e =>
      simp only [chat, Bool.false_eq_true, if_false, hload, bind, Except.bind,
        create_message_dict_user, log_message, pyAppend, call_llm_api, hcl,
        create_message_dict_assistant, save_chat_history, pure, Except.pure]
      exact ⟨assistant_error_message, _, rfl, by simp, by simp, by simp,
        fun _ => rfl, fun t ht => by injection ht⟩
  | ok c =>
      simp only [chat, Bool.false_eq_true, if_false, hload, bind, Except.bind,
        create_message_dict_user, log_message, pyAppend, call_llm_api, hcl,
        create_message_dict_assistant, save_chat_history, pure, Except.pure]
      exact ⟨c, _, rfl, by simp, by simp, by simp,
        fun hc => by injection hc, fun t ht => by injection ht⟩

lemma context_lookup_ok (kvs : List (String × PyVal)) :
    ∃ ctx, dictGetItem
        (if dictHasKey (PyVal.dict kvs) "current_correction_context" then PyVal.dict kvs
         else dictSet (PyVal.dict kvs) "current_correction_context" (PyVal.dict []))
        "current_correction_context" = Except.ok ctx := by
  by_cases hk : dictHasKey (PyVal.dict kvs) "current_correction_context" = true
  · rw [if_pos hk]
    simp only [dictHasKey] at hk
    have hsome : (kvs.find? (fun kv => kv.1 = "current_correction_context")).isSome := by
      rw [List.find?_isSome]
      exact List.any_eq_true.mp hk
    obtain ⟨y, hy⟩ := Option.isSome_iff_exists.mp hsome
    exact ⟨y.2, by simp [dictGetItem, dictGet, hy]⟩
  · rw [if_neg hk]
    simp only [dictHasKey, Bool.not_eq_true] at hk
    have hnone : kvs.find? (fun kv => kv.1 = "current_correction_context") = Option.none := by
      rw [List.find?_eq_none]
      intro x hx
      exact (List.any_eq_false.mp hk) x hx
    refine ⟨PyVal.dict [], ?_⟩
    simp [dictSet, hk, dictGetItem, dictGet, List.find?_append, hnone]

lemma startsWithTicks_iff (l : List Char) : startsWithTicks l = true ↔ ticks <+: l := by
  simp [startsWithTicks, List.isPrefixOf_iff_prefix]

lemma take3_append (x r : List Char) (h : 3 ≤ x.length) :
    (x ++ r).take 3 = x.take 3 := by
  rw [List.take_append_eq_append_take, Nat.sub_eq_zero_of_le h, List.take_zero,
    List.append_nil]

lemma ticks_prefix_append_iff (x r : List Char) (h : 3 ≤ x.length) :
    (ticks <+: x ++ r) ↔ (ticks <+: x) := by
  rw [List.prefix_iff_eq_take, List.prefix_iff_eq_take,
    show ticks.length = 3 from rfl, take3_append x r h]

lemma takeUntilTicks_some (m : List Char) : ∀ b, takeUntilTicks m = some b →
    (∃ r, m = b ++ ticks ++ r) ∧ ∀ i, i < b.length → ¬ ticks <+: m.drop i := by
  induction m with
  | nil => intro b h; simp [takeUntilTicks] at h
  | cons c rest ih =>
      intro b h
      rw [takeUntilTicks] at h
      by_cases hs : startsWithTicks (c :: rest) = true
      · rw [if_pos hs] at h
        obtain rfl : b = [] := by injection h with h; exact h.symm
        obtain ⟨r, hr⟩ := (startsWithTicks_iff _).mp hs
        exact ⟨⟨r, by rw [List.nil_append, hr]⟩, by simp⟩
      · rw [if_neg hs] at h
        cases hrec : takeUntilTicks rest with
        | none => rw [hrec] at h; simp at h
        | some b' =>
            rw [hrec] at h
            simp only [Option.map_some'] at h
            obtain rfl : b = c :: b' := by injection h with h; exact h.symm
            obtain ⟨⟨r, hr⟩, hmin⟩ := ih b' hrec
            refine ⟨⟨r, by simp [hr]⟩, ?_⟩
            intro i hi
            cases i with
            | zero =>
                intro hp
                exact hs ((startsWithTicks_iff _).mpr hp)
            | succ j =>
                intro hp
                exact hmin j (by simpa using hi) hp

lemma takeUntilTicks_complete : ∀ (b r : List Char),
    (∀ i, i < b.length → ¬ ticks <+: (b ++ ticks ++ r).drop i) →
    takeUntilTicks (b ++ ticks ++ r) = some b := by
  intro b
  induction b with
  | nil =>
      intro r _
      show takeUntilTicks (backtick :: backtick :: backtick :: r) = some []
      rw [takeUntilTicks, if_pos]
      exact (startsWithTicks_iff _).mpr ⟨r, rfl⟩
  | cons c b' ih =>
      intro r hmin
      have h0 : ¬ ticks <+: (c :: (b' ++ ticks ++ r)) := hmin 0 (Nat.succ_pos _)
      have hs : startsWithTicks (c :: (b' ++ ticks ++ r)) = false := by
        rw [Bool.eq_false_iff]
        intro hT
        exact h0 ((startsWithTicks_iff _).mp hT)
      show takeUntilTicks (c :: (b' ++ ticks ++ r)) = some (c :: b')
      rw [takeUntilTicks, hs, if_neg Bool.false_ne_true,
        ih r (fun i hi => hmin (i + 1) (Nat.succ_lt_succ hi)), Option.map_some']

lemma minimal_transfer (b r : List Char) :
    (∀ i, i < b.length → ¬ ticks <+: (b ++ ticks ++ r).drop i) ↔ MinimalBody b := by
  unfold MinimalBody
  refine forall_congr' fun i => imp_congr_right fun hi => not_congr ?_
  have h1 : (b ++ ticks ++ r).drop i = (b ++ ticks).drop i ++ r := by
    rw [List.drop_append_eq_append_drop,
      Nat.sub_eq_zero_of_le (by simp [ticks]; omega), List.drop_zero]
  rw [h1, ticks_prefix_append_iff]
  simp [ticks]
  omega

lemma takeWordRun_append_dropWordRun (l : List Char) :
    takeWordRun l ++ dropWordRun l = l := by
  induction l with
  | nil => rfl
  | cons c rest ih =>
      by_cases h : isWordChar c = true
      · simp [takeWordRun, dropWordRun, h, ih]
      · simp [takeWordRun, dropWordRun, h]

lemma takeWordRun_word (l : List Char) : ∀ c ∈ takeWordRun l, isWordChar c = true := by
  induction l with
  | nil => simp [takeWordRun]
  | cons c rest ih =>
      by_cases h : isWordChar c = true
      · simp only [takeWordRun, if_pos h]
        intro d hd
        rcases List.mem_cons.mp hd with rfl | hd
        · exact h
        · exact ih d hd
      · simp [takeWordRun, h]

set_option maxRecDepth 8192 in
lemma dropWordRun_word_newline (tag : List Char) (X : List Char)
    (htag : ∀ c ∈ tag, isWordChar c = true) :
    dropWordRun (tag ++ '\n' :: X) = '\n' :: X := by
  induction tag with
  | nil =>
      have h : isWordChar '\n' = false := by decide
      simp [dropWordRun, h]
  | cons c t ih =>
      have hc : isWordChar c = true := htag c (by simp)
      simp only [List.cons_append, dropWordRun, if_pos hc]
      exact ih fun d hd => htag d (by simp [hd])

lemma matchFencedAt_some (l b : List Char) (h : matchFencedAt l = some b) :
    ∃ tag, MatchesAt l 0 tag b ∧ MinimalBody b := by
  unfold matchFencedAt at h
  by_cases hs : startsWithTicks l = true
  case neg => rw [if_neg hs] at h; cases h
  case pos =>
  rw [if_pos hs] at h
  obtain ⟨rest, hrest⟩ := (startsWithTicks_iff _).mp hs
  have hdrop : l.drop 3 = rest := by
    rw [← hrest, show (3 : Nat) = ticks.length from rfl, List.drop_left]
  rw [hdrop] at h
  cases hdw : dropWordRun rest with
  | nil =>
      simp only [hdw] at h
      exact Option.noConfusion h
  | cons c X =>
      simp only [hdw] at h
      by_cases hc : c = '\n'
      · rw [if_pos hc] at h
        subst hc
        obtain ⟨⟨r, hr⟩, hmin⟩ := takeUntilTicks_some X b h
        refine ⟨takeWordRun rest, ⟨takeWordRun_word rest, r, ?_⟩, ?_⟩
        · rw [List.drop_zero, ← hrest]
          have hsplit : rest = takeWordRun rest ++ '\n' :: (b ++ ticks ++ r) := by
            conv_lhs => rw [← takeWordRun_append_dropWordRun rest]
            rw [hdw, hr]
          conv_lhs => rw [hsplit]
          simp only [List.append_assoc]
        · exact (minimal_transfer b r).mp (hr ▸ hmin)
      · rw [if_neg hc] at h
        cases h

lemma matchFencedAt_complete (l tag b : List Char)
    (hm : MatchesAt l 0 tag b) (hmin : MinimalBody b) :
    matchFencedAt l = some b := by
  obtain ⟨htag, r, hr⟩ := hm
  rw [List.drop_zero] at hr
  have hs : startsWithTicks l = true := by
    refine (startsWithTicks_iff _).mpr ⟨tag ++ '\n' :: (b ++ ticks ++ r), ?_⟩
    rw [hr]
    simp only [List.append_assoc]
  have hdrop : l.drop 3 = tag ++ '\n' :: (b ++ ticks ++ r) := by
    rw [hr]
    rw [show (ticks ++ tag ++ '\n' :: (b ++ ticks ++ r) : List Char)
        = ticks ++ (tag ++ '\n' :: (b ++ ticks ++ r)) from by simp only [List.append_assoc]]
    rw [show (3 : Nat) = ticks.length from rfl, List.drop_left]
  unfold matchFencedAt
  rw [if_pos hs, hdrop, dropWordRun_word_newline tag _ htag]
  show (if ('\n' : Char) = '\n' then takeUntilTicks (b ++ ticks ++ r) else Option.none)
      = some b
  rw [if_pos rfl]
  exact takeUntilTicks_complete b r ((minimal_transfer b r).mpr hmin)

lemma MatchesAt_shift (c : Char) (l : List Char) (p : Nat) (t b : List Char) :
    MatchesAt (c :: l) (p + 1) t b ↔ MatchesAt l p t b := by
  unfold MatchesAt
  rw [List.drop_succ_cons]

lemma searchFenced_none (l : List Char) (h : ∀ p t b, ¬ MatchesAt l p t b) :
    searchFenced l = Option.none := by
  induction l with
  | nil => rfl
  | cons c rest ih =>
      have hm : matchFencedAt (c :: rest) = Option.none := by
        cases hmf : matchFencedAt (c :: rest) with
        | none => rfl
        | some b =>
            obtain ⟨tag, hM, -⟩ := matchFencedAt_some _ _ hmf
            exact absurd hM (h 0 tag b)
      rw [searchFenced, hm]
      exact ih fun p t b hM => h (p + 1) t b ((MatchesAt_shift c rest p t b).mpr hM)

lemma searchFenced_first (l : List Char) : ∀ (p : Nat) (tag b : List Char),
    FirstFenced l p tag b → searchFenced l = some b := by
  induction l with
  | nil =>
      rintro p tag b ⟨⟨-, r, hr⟩, -, -⟩
      simp [ticks] at hr
  | cons c rest ih =>
      rintro p tag b ⟨hM, hmin, hleft⟩
      cases p with
      | zero =>
          rw [searchFenced, matchFencedAt_complete _ tag b hM hmin]
      | succ q =>
          have hm0 : matchFencedAt (c :: rest) = Option.none := by
            cases hmf : matchFencedAt (c :: rest) with
            | none => rfl
            | some b' =>
                obtain ⟨t', hM', -⟩ := matchFencedAt_some _ _ hmf
                exact absurd hM' (hleft 0 t' b' (Nat.succ_pos q))
          rw [searchFenced, hm0]
          refine ih q tag b ⟨(MatchesAt_shift c rest q tag b).mp hM, hmin, ?_⟩
          intro q' t' b' hq' hM'
          exact hleft (q' + 1) t' b' (Nat.succ_lt_succ hq')
            ((MatchesAt_shift c rest q' t' b').mpr hM')

lemma MatchesAt_ticks_lead (l : List Char) (p : Nat) (t b : List Char)
    (h : MatchesAt l p t b) : ticks <+: l.drop p := by
  obtain ⟨-, r, hr⟩ := h
  exact ⟨t ++ '\n' :: (b ++ ticks ++ r), by rw [hr]; simp only [List.append_assoc]⟩

lemma noMatch_of_noTicks (l : List Char)
    (h : ∀ p, p < l.length → ¬ ticks <+: l.drop p) :
    ∀ p t b, ¬ MatchesAt l p t b := by
  intro p t b hM
  have hp := MatchesAt_ticks_lead l p t b hM
  by_cases hlen : p < l.length
  · exact h p hlen hp
  · rw [List.drop_eq_nil_of_le (Nat.le_of_not_lt hlen)] at hp
    obtain ⟨u, hu⟩ := hp
    simp [ticks] at hu

/-- Claim C1: when the external model capability fails, `chat` still returns the
user message paired with the fixed fallback assistant message, the persisted
history ends with exactly those two messages, both are appended to the audit
log, and the failure is not propagated (the result is `ok`). -/
theorem chat_model_failure (client : String → PyVal → Except Unit String)
    (model prompt : String) (uih : Bool) (sysm : Option String)
    (hist : List PyVal) (s : Store)
    (hrec : s.record = RecordFile.parsed (PyVal.list hist))
    (hfail : ∀ m msgs, client m msgs = Except.error ()) :
    ∃ pre s₂, chat client model prompt uih sysm s
        = Except.ok ((userD prompt, fallbackD), s₂)
      ∧ s₂.record = RecordFile.parsed (PyVal.list (pre ++ [userD prompt, fallbackD]))
      ∧ s₂.log = s.log ++ [userD prompt, fallbackD] := by
  cases uih with
  | true =>
      cases htr : strTruthy sysm with
      | true =>
          obtain ⟨S, rfl, hS⟩ := strTruthy_some sysm htr
          obtain ⟨c, s₂, hchat, hr2, hl2, -, hcfb, -⟩ :=
            chat_fresh_spec client model prompt S s hS
          have hc : c = assistant_error_message := hcfb (hfail _ _)
          subst hc
          exact ⟨[mkDict "system" S], s₂, hchat, hr2, hl2⟩
      | false =>
          obtain ⟨c, s₂, hchat, hr2, hl2, -, hcfb, -⟩ :=
            chat_fresh_nosys_spec client model prompt sysm s htr
          have hc : c = assistant_error_message := hcfb (hfail _ _)
          subst hc
          exact ⟨[], s₂, hchat, hr2, hl2⟩
  | false =>
      have hload : load_chat_history s
          = Except.ok (PyVal.list hist, { s with events := s.events ++ [] }) := by
        cases s
        subst hrec
        simp [load_chat_history]
      obtain ⟨c, s₂, hchat, hr2, hl2, -, hcfb, -⟩ :=
        chat_load_spec client model prompt sysm hist [] s hload
      have hc : c = assistant_error_message := hcfb (hfail _ _)
      subst hc
      exact ⟨hist, s₂, hchat, hr2, hl2⟩

theorem chat_model_failure_witness :
    ∃ pre s₂, chat (fun _ _ => Except.error ()) "m" "p" false Option.none
        ⟨RecordFile.parsed (PyVal.list []), [], []⟩
        = Except.ok ((userD "p", fallbackD), s₂)
      ∧ s₂.record = RecordFile.parsed (PyVal.list (pre ++ [userD "p", fallbackD]))
      ∧ s₂.log = (⟨RecordFile.parsed (PyVal.list []), [], []⟩ : Store).log
          ++ [userD "p", fallbackD] :=
  chat_model_failure (fun _ _ => Except.error ()) "m" "p" false Option.none []
    ⟨RecordFile.parsed (PyVal.list []), [], []⟩ rfl (fun _ _ => rfl)

set_option maxRecDepth 8192 in
/-- Claim C2: when the input has a first fenced block (leftmost match of the
pattern, lazy-minimal content), the extractor returns the stripped interior
of exactly that block; when no position of the input matches the pattern,
the input is returned unchanged; the spec example extracts "MODEL X". -/
theorem extract_first_fenced (s : String) :
    (∀ p tag body, FirstFenced s.toList p tag body →
        extract_code_snippet s = String.mk (stripChars body))
    ∧ ((∀ p tag body, ¬ MatchesAt s.toList p tag body) → extract_code_snippet s = s)
    ∧ extract_code_snippet "explanation\n```plaintext\nMODEL X\n```\nmore text"
        = "MODEL X" := by
  refine ⟨?_, ?_, by decide⟩
  · intro p tag body hF
    unfold extract_code_snippet
    rw [searchFenced_first s.toList p tag body hF]
  · intro h
    unfold extract_code_snippet
    rw [searchFenced_none s.toList h]

set_option maxRecDepth 8192 in
theorem extract_first_fenced_witness :
    extract_code_snippet "explanation\n```plaintext\nMODEL X\n```\nmore text"
      = String.mk (stripChars exBody)
    ∧ extract_code_snippet "no fenced block" = "no fenced block" := by
  constructor
  · have hnb : ∀ q, q < 12 →
        ¬ ticks <+: ("explanation\n```plaintext\nMODEL X\n```\nmore text".toList.drop q) := by
      decide
    exact (extract_first_fenced _).1 12
      ['p', 'l', 'a', 'i', 'n', 't', 'e', 'x', 't'] exBody
      ⟨⟨by decide, "\nmore text".toList, by decide⟩, by unfold MinimalBody; decide,
        fun q t b hq hM => hnb q hq (MatchesAt_ticks_lead _ q t b hM)⟩
  · exact (extract_first_fenced _).2.1 (noMatch_of_noTicks _ (by decide))

/-- Claim C3: saving a well-formed history and loading it back returns a history
equal to the one saved, order and content preserved (the serialised array is
returned verbatim, and serialisation of well-formed histories is injective,
so the loaded value determines the original history). -/
theorem save_load_roundtrip (H H' : List Message) (s : Store) :
    load_chat_history (save_chat_history (historyToPy H) s)
      = Except.ok (historyToPy H, save_chat_history (historyToPy H) s)
    ∧ (historyToPy H = historyToPy H' → H = H') := by
  constructor
  · rfl
  · intro h
    simp only [historyToPy, PyVal.list.injEq] at h
    exact List.map_injective_iff.mpr Message.toPy_injective h

theorem save_load_roundtrip_witness :
    load_chat_history (save_chat_history (historyToPy [⟨"user", "hi"⟩]) emptyStore)
      = Except.ok (historyToPy [⟨"user", "hi"⟩],
          save_chat_history (historyToPy [⟨"user", "hi"⟩]) emptyStore)
    ∧ ([⟨"user", "hi"⟩] : List Message) = [⟨"user", "hi"⟩] :=
  ⟨(save_load_roundtrip [⟨"user", "hi"⟩] [⟨"user", "hi"⟩] emptyStore).1,
   (save_load_roundtrip [⟨"user", "hi"⟩] [⟨"user", "hi"⟩] emptyStore).2 rfl⟩

/-- Claim C4 (code bug): loading recovers from an absent snapshot and from
decodable text that is not valid JSON, returning an empty history and
distinguishing the two only by a warning side effect; but the code reads the
snapshot as raw bytes and catches only `json.JSONDecodeError`, so a snapshot
whose bytes are not valid UTF-8 makes `json.loads` raise an uncaught
`UnicodeDecodeError`: on such unparsable content load does raise, against
the claim and against the docstring of `load_chat_history` itself. -/
theorem load_missing_or_corrupt :
    load_chat_history emptyStore = Except.ok (PyVal.list [], emptyStore)
    ∧ load_chat_history corruptStore
        = Except.ok (PyVal.list [],
            { corruptStore with events := corruptStore.events ++ [Event.warn] })
    ∧ load_chat_history undecodableStore = Except.error PyError.unicodeDecodeError :=
  ⟨rfl, rfl, rfl⟩

/-- Claim C5: a fresh session with a non-empty system message persists a history
whose first entry is the system message with exactly that content, whatever
the prior persisted state was. -/
theorem chat_fresh_system_first (client : String → PyVal → Except Unit String)
    (model prompt S : String) (s : Store) (hS : S ≠ "") :
    ∃ u a s₂, chat client model prompt true (some S) s = Except.ok ((u, a), s₂)
      ∧ ∃ rest, s₂.record
          = RecordFile.parsed (PyVal.list (mkDict "system" S :: rest)) := by
  obtain ⟨c, s₂, hchat, hr2, -⟩ := chat_fresh_spec client model prompt S s hS
  exact ⟨_, _, s₂, hchat, [mkDict "user" prompt, mkDict "assistant" c], hr2⟩

theorem chat_fresh_system_first_witness :
    ∃ u a s₂, chat (fun _ _ => Except.ok "r") "m" "p" true (some "S") emptyStore
        = Except.ok ((u, a), s₂)
      ∧ ∃ rest, s₂.record
          = RecordFile.parsed (PyVal.list (mkDict "system" "S" :: rest)) :=
  chat_fresh_system_first (fun _ _ => Except.ok "r") "m" "p" "S" emptyStore (by decide)

/-- Claim C6: within one completed `chat` turn exactly one external invocation
occurs on the trace; the user message is appended to the audit log before it
and the assistant message (real or fallback) after it, in both the success
and the failure branch. -/
theorem chat_log_ordering (client : String → PyVal → Except Unit String)
    (model prompt : String) (uih : Bool) (sysm : Option String) (s : Store)
    (res : PyVal × PyVal) (s₂ : Store)
    (h : chat client model prompt uih sysm s = Except.ok (res, s₂)) :
    ∃ pre post m msgs,
      s₂.events = s.events ++ pre ++ [Event.modelCall m msgs] ++ post
      ∧ Event.logAppend res.1 ∈ pre ∧ Event.logAppend res.2 ∈ post
      ∧ (∀ e ∈ pre, e.isModelCall = false)
      ∧ (∀ e ∈ post, e.isModelCall = false) := by
  cases uih with
  | true =>
      cases htr : strTruthy sysm with
      | true =>
          obtain ⟨S, rfl, hS⟩ := strTruthy_some sysm htr
          obtain ⟨c, s₃, hchat, -, -, hev, -, -⟩ :=
            chat_fresh_spec client model prompt S s hS
          rw [hchat] at h
          simp only [Except.ok.injEq, Prod.mk.injEq] at h
          obtain ⟨hres, hs⟩ := h
          subst hs
          refine ⟨[Event.logAppend (mkDict "user" prompt)],
            [Event.logAppend (mkDict "assistant" c)], model,
            PyVal.list [mkDict "system" S, mkDict "user" prompt], ?_, ?_, ?_, ?_, ?_⟩
          · simp [hev]
          · simp [← hres]
          · simp [← hres]
          · simp [Event.isModelCall]
          · simp [Event.isModelCall]
      | false =>
          obtain ⟨c, s₃, hchat, -, -, hev, -, -⟩ :=
            chat_fresh_nosys_spec client model prompt sysm s htr
          rw [hchat] at h
          simp only [Except.ok.injEq, Prod.mk.injEq] at h
          obtain ⟨hres, hs⟩ := h
          subst hs
          refine ⟨[Event.logAppend (mkDict "user" prompt)],
            [Event.logAppend (mkDict "assistant" c)], model,
            PyVal.list [mkDict "user" prompt], ?_, ?_, ?_, ?_, ?_⟩
          · simp [hev]
          · simp [← hres]
          · simp [← hres]
          · simp [Event.isModelCall]
          · simp [Event.isModelCall]
  | false =>
      cases hr : s.record with
      | undecodable =>
          simp [chat, bind, Except.bind, load_chat_history, hr] at h
      | absent =>
          have hload : load_chat_history s
              = Except.ok (PyVal.list [], { s with events := s.events ++ [] }) := by
            cases s
            subst hr
            simp [load_chat_history]
          obtain ⟨c, s₃, hchat, -, -, hev, -, -⟩ :=
            chat_load_spec client model prompt sysm [] [] s hload
          rw [hchat] at h
          simp only [Except.ok.injEq, Prod.mk.injEq] at h
          obtain ⟨hres, hs⟩ := h
          subst hs
          refine ⟨[Event.logAppend (mkDict "user" prompt)],
            [Event.logAppend (mkDict "assistant" c)], model,
            PyVal.list ([] ++ [mkDict "user" prompt]), ?_, ?_, ?_, ?_, ?_⟩
          · simp [hev]
          · simp [← hres]
          · simp [← hres]
          · simp [Event.isModelCall]
          · simp [Event.isModelCall]
      | corrupt =>
          have hload : load_chat_history s
              = Except.ok (PyVal.list [], { s with events := s.events ++ [Event.warn] }) := by
            cases s
            subst hr
            simp [load_chat_history]
          obtain ⟨c, s₃, hchat, -, -, hev, -, -⟩ :=
            chat_load_spec client model prompt sysm [] [Event.warn] s hload
          rw [hchat] at h
          simp only [Except.ok.injEq, Prod.mk.injEq] at h
          obtain ⟨hres, hs⟩ := h
          subst hs
          refine ⟨[Event.warn, Event.logAppend (mkDict "user" prompt)],
            [Event.logAppend (mkDict "assistant" c)], model,
            PyVal.list ([] ++ [mkDict "user" prompt]), ?_, ?_, ?_, ?_, ?_⟩
          · simp [hev]
          · simp [← hres]
          · simp [← hres]
          · simp [Event.isModelCall]
          · simp [Event.isModelCall]
      | parsed v =>
          cases v with
          | list l =>
              have hload : load_chat_history s
                  = Except.ok (PyVal.list l, { s with events := s.events ++ [] }) := by
                cases s
                subst hr
                simp [load_chat_history]
              obtain ⟨c, s₃, hchat, -, -, hev, -, -⟩ :=
                chat_load_spec client model prompt sysm l [] s hload
              rw [hchat] at h
              simp only [Except.ok.injEq, Prod.mk.injEq] at h
              obtain ⟨hres, hs⟩ := h
              subst hs
              refine ⟨[Event.logAppend (mkDict "user" prompt)],
                [Event.logAppend (mkDict "assistant" c)], model,
                PyVal.list (l ++ [mkDict "user" prompt]), ?_, ?_, ?_, ?_, ?_⟩
              · simp [hev]
              · simp [← hres]
              · simp [← hres]
              · simp [Event.isModelCall]
              · simp [Event.isModelCall]
          | str t =>
              simp [chat, bind, Except.bind, load_chat_history, hr,
                create_message_dict_user, log_message, pyAppend, pure, Except.pure] at h
          | num n =>
              simp [chat, bind, Except.bind, load_chat_history, hr,
                create_message_dict_user, log_message, pyAppend, pure, Except.pure] at h
          | bool b =>
              simp [chat, bind, Except.bind, load_chat_history, hr,
                create_message_dict_user, log_message, pyAppend, pure, Except.pure] at h
          | dict kvs =>
              simp [chat, bind, Except.bind, load_chat_history, hr,
                create_message_dict_user, log_message, pyAppend, pure, Except.pure] at h
          | null =>
              simp [chat, bind, Except.bind, load_chat_history, hr,
                create_message_dict_user, log_message, pyAppend, pure, Except.pure] at h

theorem chat_log_ordering_witness :
    ∃ pre post m msgs,
      c6Store.events = emptyStore.events ++ pre ++ [Event.modelCall m msgs] ++ post
      ∧ Event.logAppend (mkDict "user" "p", fallbackD).1 ∈ pre
      ∧ Event.logAppend (mkDict "user" "p", fallbackD).2 ∈ post
      ∧ (∀ e ∈ pre, e.isModelCall = false)
      ∧ (∀ e ∈ post, e.isModelCall = false) :=
  chat_log_ordering (fun _ _ => Except.error ()) "m" "p" true Option.none emptyStore
    (mkDict "user" "p", fallbackD) c6Store rfl

/-- Claim C7: resetting validates the (defaulted) seed first; a valid seed — a list
all of whose elements are dictionaries with `role` and `content` keys —
overwrites the snapshot with exactly that list, `None` defaults to the empty
history, and any invalid seed fails with the malformed-seed error before any
write (no store is produced, so the snapshot is untouched). -/
theorem initialize_validates_seed (seed : Option PyVal) (s : Store) :
    (validSeed (seed.getD (PyVal.list [])) = true →
      ∃ msgs, seed.getD (PyVal.list []) = PyVal.list msgs
        ∧ initialize_chat_history seed s = Except.ok (save_chat_history (PyVal.list msgs) s))
    ∧ (validSeed (seed.getD (PyVal.list [])) = false →
        initialize_chat_history seed s = Except.error PyError.malformedSeed)
    ∧ initialize_chat_history Option.none s = Except.ok (save_chat_history (PyVal.list []) s) := by
  refine ⟨?_, ?_, rfl⟩
  · intro h
    cases hseed : seed.getD (PyVal.list []) with
    | list msgs =>
        refine ⟨msgs, rfl, ?_⟩
        rw [hseed] at h
        simp only [validSeed] at h
        simp [initialize_chat_history, hseed, h]
    | str v => rw [hseed] at h; simp [validSeed] at h
    | num v => rw [hseed] at h; simp [validSeed] at h
    | bool v => rw [hseed] at h; simp [validSeed] at h
    | dict v => rw [hseed] at h; simp [validSeed] at h
    | null => rw [hseed] at h; simp [validSeed] at h
  · intro h
    cases hseed : seed.getD (PyVal.list []) with
    | list msgs =>
        rw [hseed] at h
        simp only [validSeed] at h
        simp [initialize_chat_history, hseed, h]
    | str v => simp [initialize_chat_history, hseed]
    | num v => simp [initialize_chat_history, hseed]
    | bool v => simp [initialize_chat_history, hseed]
    | dict v => simp [initialize_chat_history, hseed]
    | null => simp [initialize_chat_history, hseed]

theorem initialize_validates_seed_witness :
    (∃ msgs, (some (PyVal.list [mkDict "user" "hi"])).getD (PyVal.list []) = PyVal.list msgs
      ∧ initialize_chat_history (some (PyVal.list [mkDict "user" "hi"])) emptyStore
          = Except.ok (save_chat_history (PyVal.list msgs) emptyStore))
    ∧ initialize_chat_history (some (PyVal.str "bad")) emptyStore
        = Except.error PyError.malformedSeed :=
  ⟨(initialize_validates_seed (some (PyVal.list [mkDict "user" "hi"])) emptyStore).1 (by decide),
   (initialize_validates_seed (some (PyVal.str "bad")) emptyStore).2.1 (by decide)⟩

/-- Claim C8: for each of the three recognized roles the constructed message
carries exactly the given role and content; for every other role the
construction fails with the invalid-role error, and those are the only two
outcomes (so it fails for no other reason). -/
theorem create_message_roles (role content : String) :
    (role = "user" ∨ role = "assistant" ∨ role = "system" →
      create_message_dict role content
        = Except.ok (PyVal.dict [("role", PyVal.str role), ("content", PyVal.str content)]))
    ∧ (role ≠ "user" ∧ role ≠ "assistant" ∧ role ≠ "system" →
        create_message_dict role content = Except.error PyError.invalidRole) := by
  constructor
  · intro h
    simp [create_message_dict, mkDict]
    intro hne
    rcases h with h | h | h <;> simp [h] at hne ⊢
  · intro ⟨h1, h2, h3⟩
    simp [create_message_dict, h1, h2, h3]

theorem create_message_roles_witness :
    create_message_dict "user" ""
      = Except.ok (PyVal.dict [("role", PyVal.str "user"), ("content", PyVal.str "")])
    ∧ create_message_dict "boss" "x" = Except.error PyError.invalidRole :=
  ⟨(create_message_roles "user" "").1 (Or.inl rfl),
   (create_message_roles "boss" "x").2 (by simp)⟩

/-- Claim C9: every grammar-check turn runs the Conversation Session with
`use_initial_history = true`, so whatever was persisted before, after a
successful `modify_grammer` call the persisted history holds exactly the
system, user and assistant messages of that turn, while the audit log grows
by the new user and assistant messages. -/
theorem grammar_turn_fresh (dumps : PyVal → String)
    (client : String → PyVal → Except Unit String)
    (tmpl : List (String × PyVal)) (im err : String) (s : Store)
    (res : PyVal × PyVal × String) (s₂ : Store)
    (h : modify_grammer dumps client tmpl im err s = Except.ok (res, s₂)) :
    ∃ p c, s₂.record = RecordFile.parsed (PyVal.list
        [mkDict "system" grammar_system_message, mkDict "user" p, mkDict "assistant" c])
      ∧ s₂.log = s.log ++ [mkDict "user" p, mkDict "assistant" c] := by
  obtain ⟨ctx0, hctx⟩ := context_lookup_ok tmpl
  obtain ⟨c, s₃, hchat, hr2, hl2, -, -, -⟩ :=
    chat_fresh_spec client MODEL
      (dumps (dictSet
        (if dictHasKey (PyVal.dict tmpl) "current_correction_context" then PyVal.dict tmpl
         else dictSet (PyVal.dict tmpl) "current_correction_context" (PyVal.dict []))
        "current_correction_context"
        (dictSet (dictSet (dictSet ctx0 "error_instruction"
            (PyVal.str error_instruction_with_id_prompt))
          "compilation_error_message" (PyVal.str err))
          "model_to_correct" (PyVal.str im))))
      grammar_system_message s (by decide)
  simp only [modify_grammer, bind, Except.bind] at h
  simp only [hctx] at h
  rw [hchat] at h
  simp only [dictGetItem, dictGet, mkDict, List.find?, pyStr, pure, Except.pure,
    String.reduceEq, decide_True, decide_False, Option.map_some', Except.ok.injEq,
    Prod.mk.injEq] at h
  obtain ⟨-, hs⟩ := h
  subst hs
  exact ⟨_, c, hr2, hl2⟩

theorem grammar_turn_fresh_witness :
    ∃ p c, c9Store.record = RecordFile.parsed (PyVal.list
        [mkDict "system" grammar_system_message, mkDict "user" p, mkDict "assistant" c])
      ∧ c9Store.log = emptyStore.log ++ [mkDict "user" p, mkDict "assistant" c] :=
  grammar_turn_fresh (fun _ => "q") (fun _ _ => Except.ok "x") [] "model" "err"
    emptyStore (mkDict "user" "q", mkDict "assistant" "x", "x") c9Store rfl

/-- Claim C10: the empty-string system message is falsy in Python, so the initial
history drops it exactly as when no system message is supplied, and a fresh
`chat` turn with an empty system message persists a history beginning
directly with the user message. -/
theorem empty_system_message_dropped (client : String → PyVal → Except Unit String)
    (model prompt : String) (s : Store) :
    get_initial_chat_history (some "") = Except.ok []
    ∧ get_initial_chat_history Option.none = Except.ok []
    ∧ ∃ a s₂, chat client model prompt true (some "") s
        = Except.ok ((mkDict "user" prompt, a), s₂)
      ∧ s₂.record = RecordFile.parsed (PyVal.list [mkDict "user" prompt, a]) := by
  refine ⟨rfl, rfl, ?_⟩
  obtain ⟨c, s₂, hchat, hr2, -⟩ :=
    chat_fresh_nosys_spec client model prompt (some "") s rfl
  exact ⟨mkDict "assistant" c, s₂, hchat, hr2⟩
